import Mathlib

/-!
Verification of the azure-snapshots-recovery batch recovery engine.

This file shallowly embeds the core control flow of the repository:
the error classifier (src/common/errors.ts), the generic retry helper
(src/common/retry-utils.ts), the batch orchestrator
(src/functions/orchestrator.ts), the synchronous and asynchronous
per-unit create activities (src/functions/createvmactivity.ts,
src/functions/createvmasyncactivity.ts), the long-running-operation
poller (src/functions/vmpoller.ts with VmManager.checkVmCreationStatus
and QueueManager.scheduleVmPollRetry), and the network-interface IP
allocation choice (VmManager.createNetworkInterface).

External collaborators (Azure SDK clients, the log sink, the storage
queue) are modelled as outcome parameters: each activity takes the
outcome its collaborator would produce, and the embedded control flow
decides what the program does with it, exactly as the source does.
JavaScript truthiness on optional fields and exceptions raised by
property access on null/undefined are modelled explicitly.
-/

namespace SnapRecovery

/-- Does the first character list start the second one? -/
def listStartsWith : List Char → List Char → Bool
  | [], _ => true
  | _ :: _, [] => false
  | a :: as, b :: bs => a = b && listStartsWith as bs

/-- Does the first character list occur inside the second one? -/
def listHasInfix (needle : List Char) : List Char → Bool
  | [] => needle.isEmpty
  | h :: t => listStartsWith needle (h :: t) || listHasInfix needle t

/-- JS `s.includes(sub)` on strings. -/
def strIncludes (s sub : String) : Bool := listHasInfix sub.data s.data

/-- Truthiness of an optional JS string field: `undefined` and the empty
string are falsy. -/
def truthyStr : Option String → Bool
  | none => false
  | some s => s ≠ ""

/-- Truthiness of an optional JS number field: `undefined` and `0` are falsy. -/
def truthyNat : Option Nat → Bool
  | none => false
  | some n => n ≠ 0

/-- JS template-literal interpolation of a possibly-undefined string. -/
def interpStr : Option String → String
  | none => "undefined"
  | some s => s

/-- JS `m || d` on an optional string (falsy values replaced by the default). -/
def orDefault (m : Option String) (d : String) : String :=
  match m with
  | none => d
  | some s => if s = "" then d else s

/-- The concrete error class a classified error was built with
(src/common/errors.ts).  `BusinessError extends PermanentError`, so an
`instanceof PermanentError` test also accepts `businessC`. -/
inductive ErrCtor where
  | permanentC
  | businessC
  | transientC
  | fatalC
  | azureC
  deriving DecidableEq, Repr

/-- A constructed application error: class tag, message, and (for
`AzureError`) the optional HTTP status code. -/
structure AppErrorVal where
  ctor : ErrCtor
  message : String
  statusCode : Option Nat
  deriving DecidableEq, Repr

/-- `AzureError.isRetryableStatusCode` (src/common/errors.ts: 408, 429,
500, 502, 503, 504; a missing status code is not retryable). -/
def retryableStatus : Option Nat → Bool
  | none => false
  | some c => c = 408 || c = 429 || c = 500 || c = 502 || c = 503 || c = 504

/-- The `isRetryable` field of each error class: `PermanentError`,
`BusinessError` and `FatalError` are never retryable, `TransientError`
always is, `AzureError` depends on its status code. -/
def AppErrorVal.isRetryable (e : AppErrorVal) : Bool :=
  match e.ctor with
  | .permanentC => false
  | .businessC => false
  | .fatalC => false
  | .transientC => true
  | .azureC => retryableStatus e.statusCode

/-- `error instanceof PermanentError` (true for `BusinessError` as a
subclass). -/
def instPermanent : ErrCtor → Bool
  | .permanentC => true
  | .businessC => true
  | _ => false

/-- The orchestrator's non-retry test
(`classifiedError instanceof PermanentError || classifiedError instanceof FatalError`). -/
def nonRetriedByOrch (e : AppErrorVal) : Bool :=
  instPermanent e.ctor || e.ctor = .fatalC

/-- A runtime exception of the JavaScript engine itself (property access
on null/undefined). -/
inductive JsError where
  | typeError
  deriving DecidableEq, Repr

/-- A raw value arriving at `classifyError`: null, undefined, an
already-classified `AppError` instance, or a plain object carrying the
fields the classifier inspects. -/
inductive RawError where
  | nullE
  | undefE
  | classified (e : AppErrorVal)
  | obj (statusCode : Option Nat) (code name message : Option String)
  deriving DecidableEq, Repr

/-- `error.message?.includes('validation')` with undefined falsy. -/
def msgHasValidation : Option String → Bool
  | some s => strIncludes s "validation"
  | none => false

/-- The non-throwing core of `classifyError` on a plain object
(src/common/errors.ts lines 113-135), with the branches in source order:
the Azure-SDK branch (`error.statusCode || error.code`) first, then the
network-error branch, then the validation branch, then the transient
default. -/
def classifyErrorObj (sc : Option Nat) (code nm msg : Option String) : AppErrorVal :=
  if truthyNat sc || truthyStr code then
    { ctor := .azureC, message := orDefault msg "Azure operation failed", statusCode := sc }
  else if code = some "ETIMEDOUT" ∨ code = some "ECONNRESET" then
    { ctor := .transientC, message := "Network error: " ++ interpStr msg, statusCode := none }
  else if nm = some "ValidationError" ∨ msgHasValidation msg = true then
    { ctor := .businessC, message := "Validation failed: " ++ interpStr msg, statusCode := none }
  else
    { ctor := .transientC, message := "Unknown error: " ++ interpStr msg, statusCode := none }

/-- `classifyError` (src/common/errors.ts).  The `instanceof AppError`
test is safe on any input, but the very next access `error.statusCode`
throws a TypeError when the input is null or undefined. -/
def classifyError : RawError → Except JsError AppErrorVal
  | .nullE => .error .typeError
  | .undefE => .error .typeError
  | .classified e => .ok e
  | .obj sc code nm msg => .ok (classifyErrorObj sc code nm msg)

/-! ## Retry delay policies (src/common/retry-utils.ts and the poller) -/

/-- Retry policy configuration (`RetryConfig`, src/common/retry-utils.ts). -/
structure RetryConfig where
  maxAttempts : Nat
  initialDelayMs : ℚ
  maxDelayMs : ℚ
  backoffMultiplier : ℚ
  deriving DecidableEq, Repr

/-- `RetryPolicies.transient`. -/
def retryPolicyTransient : RetryConfig :=
  { maxAttempts := 5, initialDelayMs := 1000, maxDelayMs := 30000, backoffMultiplier := 2 }

/-- `RetryPolicies.azure`. -/
def retryPolicyAzure : RetryConfig :=
  { maxAttempts := 3, initialDelayMs := 2000, maxDelayMs := 20000, backoffMultiplier := 3/2 }

/-- `RetryPolicies.critical`. -/
def retryPolicyCritical : RetryConfig :=
  { maxAttempts := 7, initialDelayMs := 500, maxDelayMs := 60000, backoffMultiplier := 2 }

/-- The delay computed by `executeActivityWithRetry` before retry number
`attempt + 1`:
`Math.min(initialDelayMs * backoffMultiplier ** (attempt - 1), maxDelayMs)`. -/
def retryDelay (cfg : RetryConfig) (attempt : Nat) : ℚ :=
  min (cfg.initialDelayMs * cfg.backoffMultiplier ^ (attempt - 1)) cfg.maxDelayMs

/-- The delay computed by the poller (src/functions/vmpoller.ts line 92):
`Math.min(baseDelay * Math.pow(1.5, Math.min(retryCount, 5)), maxDelay)`. -/
def pollDelay (baseDelay maxDelay : ℚ) (retryCount : Nat) : ℚ :=
  min (baseDelay * (3/2 : ℚ) ^ (min retryCount 5)) maxDelay

/-! ## The async poller chain (VmManager.checkVmCreationStatus,
QueueManager.scheduleVmPollRetry, vmCreationPoller) -/

/-- The identity of a created machine (`VmInfo`). -/
structure VmInfoM where
  id : String
  name : String
  ipAddress : String
  deriving DecidableEq, Repr

/-- The fields of a `VmCreationPollMessage` the poller logic inspects:
the three validated identity fields, the NIC address used to report the
final machine identity, and the retry counter. -/
structure PollMsg where
  vmName : String
  targetResourceGroup : String
  operationId : String
  nicIp : String
  retryCount : Nat
  deriving DecidableEq, Repr

/-- A `VmCreationResult` as produced by `VmManager`. -/
structure VmCreationResultM where
  success : Bool
  error : Option String
  vmInfo : Option VmInfoM
  pollerMessage : Option PollMsg
  deriving DecidableEq, Repr

/-- The outcome of the `virtualMachines.get` call inside
`checkVmCreationStatus`: either the SDK threw (with some message) or it
returned a machine with a provisioning state. -/
inductive VmGetOutcome where
  | threw (msg : String)
  | vm (id name provisioningState : String)
  deriving DecidableEq, Repr

/-- `VmManager.checkVmCreationStatus` (src/controllers/vm.manager.ts):
a NotFound error or a non-terminal provisioning state is
"still in progress" and yields a poll message whose retry counter is the
incoming counter plus one; `Succeeded` yields the machine identity;
`Failed` or any other get error yields a failure with no poll message. -/
def checkVmCreationStatus (pm : PollMsg) (g : VmGetOutcome) : VmCreationResultM :=
  match g with
  | .threw m =>
    if strIncludes m "NotFound" || strIncludes m "ResourceNotFound" then
      { success := false, error := some "VM creation still in progress",
        vmInfo := none, pollerMessage := some { pm with retryCount := pm.retryCount + 1 } }
    else
      { success := false, error := some ("Error checking VM status: " ++ m),
        vmInfo := none, pollerMessage := none }
  | .vm i n ps =>
    if ps = "Succeeded" then
      { success := true, error := none,
        vmInfo := some { id := i, name := n, ipAddress := pm.nicIp }, pollerMessage := none }
    else if ps = "Failed" then
      { success := false,
        error := some ("VM creation failed for " ++ pm.vmName ++ ", provisioning state: " ++ ps),
        vmInfo := none, pollerMessage := none }
    else
      { success := false, error := some ("VM creation still in progress, state: " ++ ps),
        vmInfo := none, pollerMessage := some { pm with retryCount := pm.retryCount + 1 } }

/-- `QueueManager.scheduleVmPollRetry` (src/controllers/queue.manager.ts):
the enqueued message is the given message with its retry counter
incremented once more. -/
def scheduleVmPollRetryMsg (pm : PollMsg) : PollMsg :=
  { pm with retryCount := pm.retryCount + 1 }

/-- What one invocation of the queue-triggered poller does. -/
inductive PollOutcome where
  | completed (vi : VmInfoM)
  | requeued (enqueued : PollMsg) (delaySeconds : ℚ)
  | failedTimeout
  | failedPermanent (msg : String)
  | invalidDiscarded
  deriving DecidableEq, Repr

/-- Does the external status report mean "still creating"
(the two branches of `checkVmCreationStatus` that produce a poll message)? -/
def statusInProgress : VmGetOutcome → Bool
  | .threw m => strIncludes m "NotFound" || strIncludes m "ResourceNotFound"
  | .vm _ _ ps => ps ≠ "Succeeded" && ps ≠ "Failed"

/-- `vmCreationPoller` (src/functions/vmpoller.ts) on an already-parsed
message: validate the identity fields, check creation status, then
either finish, re-enqueue via `scheduleVmPollRetry` with the poll
backoff delay when the (already incremented) counter is below the
maximum, or give up with a timeout failure. -/
def vmCreationPoller (pm : PollMsg) (g : VmGetOutcome) (maxRetries : Nat)
    (baseDelay maxDelay : ℚ) : PollOutcome :=
  if pm.vmName = "" || pm.targetResourceGroup = "" || pm.operationId = "" then
    .invalidDiscarded
  else
    let result := checkVmCreationStatus pm g
    if result.success && result.vmInfo.isSome then
      .completed (result.vmInfo.getD { id := "", name := "", ipAddress := "" })
    else
      match result.pollerMessage with
      | some pmsg =>
        if pmsg.retryCount < maxRetries then
          .requeued (scheduleVmPollRetryMsg pmsg) (pollDelay baseDelay maxDelay pmsg.retryCount)
        else
          .failedTimeout
      | none => .failedPermanent (result.error.getD "")

/-! ## Batch orchestrator (src/functions/orchestrator.ts) -/

/-- The candidate fields the orchestrator and activities inspect
(`RecoverySnapshot`). -/
structure SnapshotM where
  vmName : String
  snapshotName : String
  location : String
  diskProfile : String
  ipAddress : Option String
  deriving DecidableEq, Repr

/-- A resolved target network and its region (`SubnetLocation`). -/
structure SubnetLocationM where
  subnetId : String
  location : String
  deriving DecidableEq, Repr

/-- The resolved candidate set (`RecoveryInfo`). -/
structure RecoveryInfoM where
  snapshots : List SnapshotM
  subnetLocations : List SubnetLocationM
  deriving DecidableEq, Repr

/-- One entry of the orchestrator's `allResults` list: either the value
an activity returned (a `VmInfo`, which has no `success` field, so
`success !== false` holds) or a `{success:false, message}` object. -/
inductive TaskResult where
  | vmOk (vm : VmInfoM)
  | failedResult (message : String)
  deriving DecidableEq, Repr

/-- The orchestrator's success filter `result.success !== false`. -/
def resultIsSuccess : TaskResult → Bool
  | .vmOk _ => true
  | .failedResult _ => false

/-- `recoveryInfo.subnetLocations.find(sl => sl.location === snapshot.location)`. -/
def findMatchingSubnet (subs : List SubnetLocationM) (s : SnapshotM) : Option SubnetLocationM :=
  subs.find? (fun sl => sl.location = s.location)

/-- The message of the recorded per-unit failure when no subnet shares
the candidate's region. -/
def noSubnetMsg (s : SnapshotM) : String :=
  "No subnet found in location " ++ s.location ++ " for snapshot " ++ s.snapshotName

/-- One batch of the orchestrator's loop: every candidate without a
region-matching subnet contributes a recorded failure object; every
other candidate dispatches the create activity, and `Task.all` raises
the (classified) error of any failed activity, ending the batch and the
request.  `create` is the outcome of the dispatched
`CREATE_VM_ACTIVITY` call for a given candidate. -/
def runBatch (subs : List SubnetLocationM) (create : SnapshotM → Except AppErrorVal VmInfoM) :
    List SnapshotM → Except AppErrorVal (List TaskResult)
  | [] => .ok []
  | s :: rest =>
    match findMatchingSubnet subs s with
    | none => (runBatch subs create rest).map (fun rs => .failedResult (noSubnetMsg s) :: rs)
    | some _ =>
      match create s with
      | .error e => .error e
      | .ok v => (runBatch subs create rest).map (fun rs => .vmOk v :: rs)

/-- Structural worker for `chunkList`: the fuel bounds the number of
iterations (the list length always suffices, since each step consumes at
least one element when the chunk size is positive). -/
def chunkListFuel (n : Nat) : Nat → List α → List (List α)
  | _, [] => []
  | 0, _ :: _ => []
  | fuel + 1, x :: rest =>
    if n = 0 then [] else
      (x :: rest).take n :: chunkListFuel n fuel ((x :: rest).drop n)

/-- The batch partition produced by the loop
`for (i = 0; i < len; i += batchSize) slice(i, i + batchSize)`
(for a positive batch size). -/
def chunkList (n : Nat) (xs : List α) : List (List α) :=
  chunkListFuel n xs.length xs

/-- The batch loop over the partitioned candidate list, threading the
accumulated result list and counting the inter-batch timer yields
(taken after a batch exactly when more candidates remain and the
configured delay is positive). -/
def runChunks (subs : List SubnetLocationM) (create : SnapshotM → Except AppErrorVal VmInfoM)
    (delayBetween : Nat) : List (List SnapshotM) → Except AppErrorVal (List TaskResult × Nat)
  | [] => .ok ([], 0)
  | c :: rest =>
    match runBatch subs create c with
    | .error e => .error e
    | .ok rs =>
      match runChunks subs create delayBetween rest with
      | .error e => .error e
      | .ok (rs2, d) => .ok (rs ++ rs2, (if rest ≠ [] ∧ 0 < delayBetween then 1 else 0) + d)

/-- The final aggregate of `batchOrchestrator`. -/
structure FinalResult where
  success : Bool
  totalProcessed : Nat
  successful : Nat
  failed : Nat
  deriving DecidableEq, Repr

/-- `totalSuccessful = filter(success !== false).length`,
`success = totalSuccessful > 0`. -/
def finalStats (rs : List TaskResult) : FinalResult :=
  let succ := (rs.filter resultIsSuccess).length
  { success := decide (0 < succ), totalProcessed := rs.length,
    successful := succ, failed := rs.length - succ }

/-- What a completed orchestration returns: the empty-result object when
no candidates or no subnet regions resolved, or the final aggregate
together with the observable batch trace (batch sizes dispatched and
number of inter-batch delays). -/
inductive OrchOutcome where
  | emptyResult (message : String)
  | final (r : FinalResult) (results : List TaskResult) (batchSizes : List Nat) (delays : Nat)
  deriving DecidableEq, Repr

/-- An error escaping the orchestration: a classified application error,
a JS runtime error, or a plain `Error` (only its message observable). -/
inductive Thrown where
  | appErr (e : AppErrorVal)
  | jsErr (e : JsError)
  | plainErr (m : String)
  deriving DecidableEq, Repr

/-- The batch phase of `batchOrchestrator` given already-resolved
candidates: the empty guard, the batch loop, and the final aggregate;
an error from any batch is classified (already-classified errors pass
through unchanged) and rethrown. -/
def runOrchestrator (batchSize delayBetween : Nat) (ri : RecoveryInfoM)
    (create : SnapshotM → Except AppErrorVal VmInfoM) : Except Thrown OrchOutcome :=
  if ri.snapshots.length = 0 ∨ ri.subnetLocations.length = 0 then
    .ok (.emptyResult "No snapshots found in the same region of subnets")
  else
    match runChunks ri.subnetLocations create delayBetween (chunkList batchSize ri.snapshots) with
    | .error e => .error (.appErr e)
    | .ok (rs, d) =>
      .ok (.final (finalStats rs) rs ((chunkList batchSize ri.snapshots).map List.length) d)

/-- The candidate-resolution retry loop of `batchOrchestrator`
(lines 40-72): up to `maxA` attempts; an error classified as
`PermanentError` (hence also `BusinessError`) or `FatalError` is
rethrown at once; otherwise the loop retries until the attempt budget is
spent, remembering the last classified error.  The returned number
counts the attempts actually performed. -/
def getSnapsAux (oracle : Nat → Except RawError RecoveryInfoM) (maxA : Nat) :
    Nat → Nat → Option AppErrorVal →
    (Except Thrown (Option RecoveryInfoM × Option AppErrorVal)) × Nat
  | 0, _, lastError => (.ok (none, lastError), 0)
  | fuel + 1, attempt, lastError =>
    match oracle attempt with
    | .ok info => (.ok (some info, lastError), 1)
    | .error raw =>
      match classifyError raw with
      | .error js => (.error (.jsErr js), 1)
      | .ok ce =>
        if nonRetriedByOrch ce then (.error (.appErr ce), 1)
        else if maxA ≤ attempt then (.ok (none, some ce), 1)
        else
          match getSnapsAux oracle maxA fuel (attempt + 1) (some ce) with
          | (r, n) => (r, n + 1)

/-- The candidate-resolution step: run the retry loop from attempt 1
(the fuel `maxA` bounds its iterations, matching the loop guard
`attempt <= maxAttempts`); if it ends without a result, throw the last
error (or a plain `Error` when there was none). -/
def getSnapshotsWithRetry (oracle : Nat → Except RawError RecoveryInfoM) (maxA : Nat) :
    (Except Thrown RecoveryInfoM) × Nat :=
  match getSnapsAux oracle maxA maxA 1 none with
  | (.error t, n) => (.error t, n)
  | (.ok (some info, _), n) => (.ok info, n)
  | (.ok (none, some le), n) => (.error (.appErr le), n)
  | (.ok (none, none), n) => (.error (.plainErr "Failed to get snapshots after retries"), n)

/-- The whole `batchOrchestrator` run: resolve candidates with the
3-attempt retry, then run the batch phase.  The second component is the
number of resolution attempts performed. -/
def fullOrchestrator (batchSize delayBetween maxA : Nat)
    (oracle : Nat → Except RawError RecoveryInfoM)
    (create : SnapshotM → Except AppErrorVal VmInfoM) : (Except Thrown OrchOutcome) × Nat :=
  match getSnapshotsWithRetry oracle maxA with
  | (.error t, n) => (.error t, n)
  | (.ok ri, n) => (runOrchestrator batchSize delayBetween ri create, n)

/-! ## Per-unit create activities -/

/-- The per-unit activity input
(`{targetSubnetId, targetResourceGroup, useOriginalIpAddress, sourceSnapshot}`);
string fields are empty when falsy. -/
structure NewVmDetailsM where
  sourceSnapshot : Option SnapshotM
  targetSubnetId : String
  targetResourceGroup : String
  deriving DecidableEq, Repr

/-- A created disk (`VmDisk`). -/
structure VmDiskM where
  id : String
  name : String
  deriving DecidableEq, Repr

/-- The classification an error takes when the activity's outer catch
applies `classifyError` to a plain thrown `Error` carrying only a
message (the `VmError` / log / queue error classes of this repository). -/
def classifyCaughtPlain (m : String) : AppErrorVal :=
  classifyErrorObj none none (some "Error") (some m)

/-- `classifyVmManagerError` of createvmactivity.ts: message-pattern
rules in source order (subnet-prefix, quota/limit, already-exists,
authorization, network, throttling, not-found), falling back to
`classifyError`. -/
def classifyVmManagerErrorSync (operation m : String) : AppErrorVal :=
  if strIncludes m "does not belong to the range of subnet prefix" then
    { ctor := .permanentC,
      message := operation ++ " failed - IP address does not belong to the range of subnet prefix: " ++ m,
      statusCode := none }
  else if strIncludes m "quota" || strIncludes m "limit" then
    { ctor := .transientC, message := operation ++ " failed due to quota limits: " ++ m,
      statusCode := none }
  else if strIncludes m "already exists" || strIncludes m "ConflictError" then
    { ctor := .permanentC, message := operation ++ " failed - resource already exists: " ++ m,
      statusCode := none }
  else if strIncludes m "Unauthorized" || strIncludes m "Forbidden" ||
          strIncludes m "does not have authorization" then
    { ctor := .permanentC, message := operation ++ " failed - authentication/authorization error: " ++ m,
      statusCode := none }
  else if strIncludes m "timeout" || strIncludes m "network" || strIncludes m "connection" then
    { ctor := .transientC, message := operation ++ " failed due to network issues: " ++ m,
      statusCode := none }
  else if strIncludes m "throttle" || strIncludes m "rate limit" then
    { ctor := .transientC, message := operation ++ " failed due to rate limiting: " ++ m,
      statusCode := none }
  else if strIncludes m "NotFound" || strIncludes m "does not exist" then
    { ctor := .permanentC, message := operation ++ " failed - resource not found: " ++ m,
      statusCode := none }
  else
    classifyCaughtPlain m

/-- `classifyVmManagerError` of createvmasyncactivity.ts: the same rules
without the subnet-prefix rule and without the
"does not have authorization" pattern. -/
def classifyVmManagerErrorAsync (operation m : String) : AppErrorVal :=
  if strIncludes m "quota" || strIncludes m "limit" then
    { ctor := .transientC, message := operation ++ " failed due to quota limits: " ++ m,
      statusCode := none }
  else if strIncludes m "already exists" || strIncludes m "ConflictError" then
    { ctor := .permanentC, message := operation ++ " failed - resource already exists: " ++ m,
      statusCode := none }
  else if strIncludes m "Unauthorized" || strIncludes m "Forbidden" then
    { ctor := .permanentC, message := operation ++ " failed - authentication/authorization error: " ++ m,
      statusCode := none }
  else if strIncludes m "timeout" || strIncludes m "network" || strIncludes m "connection" then
    { ctor := .transientC, message := operation ++ " failed due to network issues: " ++ m,
      statusCode := none }
  else if strIncludes m "throttle" || strIncludes m "rate limit" then
    { ctor := .transientC, message := operation ++ " failed due to rate limiting: " ++ m,
      statusCode := none }
  else if strIncludes m "NotFound" || strIncludes m "does not exist" then
    { ctor := .permanentC, message := operation ++ " failed - resource not found: " ++ m,
      statusCode := none }
  else
    classifyCaughtPlain m

/-- Collaborator outcomes for one run of the synchronous
`createVmActivity`: the start log upload, `createDiskFromSnapshot`,
`createVirtualMachine` (their thrown `VmError`s carry only a message),
and the end log upload. -/
structure SyncEnv where
  logStart : Except String Unit
  diskResult : Except String VmDiskM
  vmResult : Except String VmInfoM
  logEnd : Except String Unit
  deriving Repr

/-- `createVmActivity` (src/functions/createvmactivity.ts) as invoked by
the orchestrator (the input object is never null there): input and
business validation throw `PermanentError`/`BusinessError`; disk and VM
errors are classified by `classifyVmManagerError`; the outer catch
classifies whatever was thrown (classified errors pass through) and
RETHROWS it, so every failure of this activity escapes to the caller. -/
def createVmActivity (input : NewVmDetailsM) (env : SyncEnv) : Except AppErrorVal VmInfoM :=
  match input.sourceSnapshot with
  | none =>
    .error { ctor := .permanentC,
             message := "Input is required (sourceSnapshot, targetSubnetId, targetResourceGroup)",
             statusCode := none }
  | some snap =>
    if input.targetSubnetId = "" || input.targetResourceGroup = "" then
      .error { ctor := .permanentC,
               message := "Input is required (sourceSnapshot, targetSubnetId, targetResourceGroup)",
               statusCode := none }
    else if snap.diskProfile ≠ "os-disk" then
      .error { ctor := .businessC,
               message := "Cannot create VM from " ++ snap.diskProfile ++
                 " snapshot. Only os-disk snapshots are supported.",
               statusCode := none }
    else
      match env.logStart with
      | .error m => .error (classifyCaughtPlain m)
      | .ok _ =>
        match env.diskResult with
        | .error m => .error (classifyVmManagerErrorSync "disk creation" m)
        | .ok _ =>
          match env.vmResult with
          | .error m => .error (classifyVmManagerErrorSync "VM creation" m)
          | .ok vm =>
            match env.logEnd with
            | .error m => .error (classifyCaughtPlain m)
            | .ok _ => .ok vm

/-- Collaborator outcomes for one run of `createVmAsyncActivity`:
the start log upload, `createDiskFromSnapshot`,
`createVirtualMachineAsync` (which never throws and returns a
`VmCreationResult`), the queue send, and the polling log upload. -/
structure AsyncEnv where
  logStart : Except String Unit
  diskResult : Except String VmDiskM
  vmCreate : VmCreationResultM
  sendMsg : Except String Unit
  logPolling : Except String Unit
  deriving Repr

/-- The outer catch of `createVmAsyncActivity` (lines 111-149): it
classifies the error and builds a failure message interpolating
`input.sourceSnapshot?.id` — on a null input that property access itself
throws a TypeError out of the activity; otherwise the activity swallows
the error and returns `{success:false, error: classified message}`. -/
def asyncOuterCatch (input : Option NewVmDetailsM) (e : AppErrorVal) :
    Except JsError VmCreationResultM :=
  match input with
  | none => .error .typeError
  | some _ => .ok { success := false, error := some e.message, vmInfo := none, pollerMessage := none }

/-- `createVmAsyncActivity` (src/functions/createvmasyncactivity.ts):
validation, start log, disk creation, async VM creation start, queue
hand-off and polling log, with every thrown error funnelled into the
outer catch. -/
def createVmAsyncActivity (input : Option NewVmDetailsM) (env : AsyncEnv) :
    Except JsError VmCreationResultM :=
  match input with
  | none =>
    asyncOuterCatch none { ctor := .permanentC, message := "Input is required", statusCode := none }
  | some inp =>
    match inp.sourceSnapshot with
    | none =>
      asyncOuterCatch (some inp)
        { ctor := .permanentC, message := "sourceSnapshot is required", statusCode := none }
    | some snap =>
      if inp.targetSubnetId = "" then
        asyncOuterCatch (some inp)
          { ctor := .permanentC, message := "targetSubnetId is required", statusCode := none }
      else if inp.targetResourceGroup = "" then
        asyncOuterCatch (some inp)
          { ctor := .permanentC, message := "targetResourceGroup is required", statusCode := none }
      else if snap.diskProfile ≠ "os-disk" then
        asyncOuterCatch (some inp)
          { ctor := .businessC,
            message := "Cannot create VM from " ++ snap.diskProfile ++
              " snapshot. Only os-disk snapshots are supported.",
            statusCode := none }
      else
        match env.logStart with
        | .error m => asyncOuterCatch (some inp) (classifyCaughtPlain m)
        | .ok _ =>
          match env.diskResult with
          | .error m => asyncOuterCatch (some inp) (classifyVmManagerErrorAsync "disk creation" m)
          | .ok _ =>
            let r := env.vmCreate
            if r.success && r.pollerMessage.isSome then
              match env.sendMsg with
              | .error m =>
                asyncOuterCatch (some inp) (classifyVmManagerErrorAsync "VM creation" m)
              | .ok _ =>
                match env.logPolling with
                | .error m =>
                  asyncOuterCatch (some inp) (classifyVmManagerErrorAsync "VM creation" m)
                | .ok _ => .ok r
            else
              asyncOuterCatch (some inp)
                (classifyVmManagerErrorAsync "VM creation"
                  (orDefault r.error "VM creation failed with unknown error"))

/-! ## Network interface IP allocation (VmManager.createNetworkInterface) -/

/-- The `ipConfiguration` the NIC request carries. -/
inductive IpAlloc where
  | staticAlloc (ip : String)
  | dynamicAlloc
  deriving DecidableEq, Repr

/-- The allocation decision (orchestrator.ts lines 387-411):
static with the original address only when the flag is set AND the
address is truthy; otherwise — including the flag-set-but-no-address
case, which only logs a warning — dynamic allocation. -/
def chooseIpConfiguration (useOriginalIpAddress : Bool) (originalIpAddress : Option String) :
    IpAlloc :=
  if useOriginalIpAddress && truthyStr originalIpAddress then
    .staticAlloc (originalIpAddress.getD "")
  else
    .dynamicAlloc

/-- A created network interface (`VmNic`). -/
structure VmNicM where
  id : String
  name : String
  ipAddress : String
  deriving DecidableEq, Repr

/-- `VmManager.createNetworkInterface`: choose the IP configuration,
issue the SDK call (modelled by its outcome as a function of the chosen
configuration), and wrap any SDK failure in a `VmError` message. -/
def createNetworkInterface (nicName : String) (useOriginalIpAddress : Bool)
    (originalIpAddress : Option String) (client : IpAlloc → Except String VmNicM) :
    Except String VmNicM :=
  match client (chooseIpConfiguration useOriginalIpAddress originalIpAddress) with
  | .ok nic => .ok nic
  | .error m => .error ("Unable to create network interface " ++ nicName ++ ": " ++ m)

/-! ## Theorems -/

/-- C3 (counterexample): the claim includes null among the inputs on
which `classifyError` must not throw, but on a null input the access
`error.statusCode` raises a TypeError, so the function does throw. -/
theorem c3_null_input_throws :
    classifyError RawError.nullE = Except.error JsError.typeError := rfl

/-- C3 (amended): for every error input other than null and undefined,
`classifyError` returns a classified error without throwing;
already-classified errors pass through unchanged; and an object
matching no classification rule (no truthy statusCode or code, not a
validation error) is classified transient. -/
theorem c3_total_and_default_transient :
    (∀ sc code nm msg, (classifyError (RawError.obj sc code nm msg)).isOk = true)
    ∧ (∀ e, classifyError (RawError.classified e) = Except.ok e)
    ∧ (∀ sc code nm msg, truthyNat sc = false → truthyStr code = false →
        nm ≠ some "ValidationError" → msgHasValidation msg = false →
        classifyError (RawError.obj sc code nm msg) =
          Except.ok { ctor := ErrCtor.transientC,
                      message := "Unknown error: " ++ interpStr msg, statusCode := none }) := by
  refine ⟨fun sc code nm msg => rfl, fun e => rfl, fun sc code nm msg h1 h2 h3 h4 => ?_⟩
  have hc1 : code ≠ some "ETIMEDOUT" := by
    intro h; subst h; simp [truthyStr] at h2
  have hc2 : code ≠ some "ECONNRESET" := by
    intro h; subst h; simp [truthyStr] at h2
  simp [classifyError, classifyErrorObj, h1, h2, h3, h4, hc1, hc2]

/-- C3 (witness for the amended theorem): the empty object throws
nothing and is classified transient. -/
theorem c3_total_and_default_transient_check :
    classifyError (RawError.obj none none none none) =
      Except.ok { ctor := ErrCtor.transientC, message := "Unknown error: undefined",
                  statusCode := none } :=
  c3_total_and_default_transient.2.2 none none none none rfl rfl (by decide) rfl

/-- C4 (code evaluation at the failing input): an error whose `code`
field is ETIMEDOUT and which has no status code takes the Azure-SDK
branch (which tests `error.statusCode || error.code` BEFORE the
network-error branch) and is classified as a non-retryable AzureError,
not as a retryable transient error; the dedicated
ETIMEDOUT/ECONNRESET branch of `classifyError` is unreachable. -/
theorem c4_etimedout_is_nonretryable_azure :
    classifyError (RawError.obj none (some "ETIMEDOUT") none (some "socket timeout")) =
      Except.ok { ctor := ErrCtor.azureC, message := "socket timeout", statusCode := none }
    ∧ AppErrorVal.isRetryable
        { ctor := ErrCtor.azureC, message := "socket timeout", statusCode := none } = false :=
  ⟨rfl, rfl⟩

/-- C2 (code evaluation at the failing input): one in-progress poll
cycle on a message with retry counter 28 re-enqueues a message with
counter 30 — the counter is incremented twice, once by
`checkVmCreationStatus` and once more by `scheduleVmPollRetry` — so the
re-enqueued counter is the incoming counter plus two, and a message
whose counter equals the configured maximum of 30 is put in flight. -/
theorem c2_double_increment_reaches_max :
    vmCreationPoller
        { vmName := "vm1", targetResourceGroup := "rg1", operationId := "op1",
          nicIp := "10.0.0.4", retryCount := 28 }
        (VmGetOutcome.threw "NotFound") 30 60 600 =
      PollOutcome.requeued
        { vmName := "vm1", targetResourceGroup := "rg1", operationId := "op1",
          nicIp := "10.0.0.4", retryCount := 30 } (3645 / 8 : ℚ)
    ∧ ¬ (30 : Nat) < 30 := by
  constructor
  · have hdelay : pollDelay 60 600 29 = 3645 / 8 := by
      norm_num [pollDelay, Nat.min_def, min_def]
    simp [vmCreationPoller, checkVmCreationStatus, scheduleVmPollRetryMsg, hdelay,
      strIncludes, listHasInfix, listStartsWith]
  · omega

/-- C7: a poll cycle on a message whose retry counter is 29 with
maximum 30, while the external operation still reports in-progress,
ends the chain with the timeout failure and re-enqueues nothing. -/
theorem c7_poll_at_29_times_out (pm : PollMsg) (g : VmGetOutcome) (b md : ℚ)
    (h29 : pm.retryCount = 29) (hip : statusInProgress g = true)
    (h1 : pm.vmName ≠ "") (h2 : pm.targetResourceGroup ≠ "") (h3 : pm.operationId ≠ "") :
    vmCreationPoller pm g 30 b md = PollOutcome.failedTimeout := by
  cases g with
  | threw m =>
    simp only [statusInProgress] at hip
    simp [vmCreationPoller, checkVmCreationStatus, h1, h2, h3, hip, h29]
  | vm i n ps =>
    simp only [statusInProgress, Bool.and_eq_true, decide_eq_true_eq] at hip
    simp [vmCreationPoller, checkVmCreationStatus, h1, h2, h3, hip.1, hip.2, h29]

/-- C7 (witness): the timeout outcome at a concrete message with
counter 29 and a VM still in provisioning state Creating. -/
theorem c7_poll_at_29_times_out_check :
    vmCreationPoller
        { vmName := "vm1", targetResourceGroup := "rg1", operationId := "op1",
          nicIp := "10.0.0.4", retryCount := 29 }
        (VmGetOutcome.vm "id1" "vm1" "Creating") 30 60 600 = PollOutcome.failedTimeout :=
  c7_poll_at_29_times_out _ _ 60 600 rfl (by decide) (by decide) (by decide) (by decide)

/-- C10: when the preserve-original-address flag is set but the
candidate carries no (truthy) original IP address, the network-interface
creation chooses dynamic allocation and proceeds; the missing address by
itself never produces a per-unit error. -/
theorem c10_missing_ip_falls_back_to_dynamic (origIp : Option String)
    (h : truthyStr origIp = false) (client : IpAlloc → Except String VmNicM)
    (nicName : String) :
    chooseIpConfiguration true origIp = IpAlloc.dynamicAlloc
    ∧ (∀ nic, client IpAlloc.dynamicAlloc = Except.ok nic →
        createNetworkInterface nicName true origIp client = Except.ok nic) := by
  have hcfg : chooseIpConfiguration true origIp = IpAlloc.dynamicAlloc := by
    simp [chooseIpConfiguration, h]
  refine ⟨hcfg, fun nic hc => ?_⟩
  simp [createNetworkInterface, hcfg, hc]

/-- C10 (witness): with no original address at all and an SDK call that
succeeds on a dynamic configuration, the operation succeeds. -/
theorem c10_missing_ip_falls_back_to_dynamic_check :
    chooseIpConfiguration true none = IpAlloc.dynamicAlloc
    ∧ createNetworkInterface "vm1-nic" true none
        (fun _ => Except.ok { id := "nid", name := "vm1-nic", ipAddress := "10.0.0.5" }) =
      Except.ok { id := "nid", name := "vm1-nic", ipAddress := "10.0.0.5" } :=
  ⟨(c10_missing_ip_falls_back_to_dynamic none rfl
      (fun _ => Except.ok { id := "nid", name := "vm1-nic", ipAddress := "10.0.0.5" })
      "vm1-nic").1,
   (c10_missing_ip_falls_back_to_dynamic none rfl
      (fun _ => Except.ok { id := "nid", name := "vm1-nic", ipAddress := "10.0.0.5" })
      "vm1-nic").2 _ rfl⟩

/-- C5: with 45 resolved candidates (all in the region of the single
target subnet), batch size 20, inter-batch delay 10 and every per-unit
create succeeding, the orchestrator dispatches batches of sizes
20, 20 and 5, yields exactly 2 inter-batch delays, and returns
success=true, totalProcessed=45, successful=45, failed=0. -/
theorem c5_45_candidates_20_20_5 :
    runOrchestrator 20 10
      { snapshots := List.replicate 45
          { vmName := "vm", snapshotName := "snap", location := "westeurope",
            diskProfile := "os-disk", ipAddress := none },
        subnetLocations := [{ subnetId := "sub1", location := "westeurope" }] }
      (fun _ => Except.ok { id := "vmid", name := "vm", ipAddress := "10.0.0.4" }) =
    Except.ok (OrchOutcome.final
      { success := true, totalProcessed := 45, successful := 45, failed := 0 }
      (List.replicate 45 (TaskResult.vmOk { id := "vmid", name := "vm", ipAddress := "10.0.0.4" }))
      [20, 20, 5] 2) := rfl

/-- C9 (counterexample): on a null input the activity does propagate an
exception — the validation error is caught, but the catch block itself
dereferences `input.sourceSnapshot` on null while building the failure
message, and that TypeError escapes to the caller. -/
theorem c9_null_input_propagates :
    createVmAsyncActivity none
      { logStart := Except.ok (), diskResult := Except.ok { id := "d1", name := "disk1" },
        vmCreate := { success := true, error := none, vmInfo := none,
                      pollerMessage := some { vmName := "vm", targetResourceGroup := "rg",
                                              operationId := "op", nicIp := "ip",
                                              retryCount := 0 } },
        sendMsg := Except.ok (), logPolling := Except.ok () } =
      Except.error JsError.typeError := rfl

/-- C9 (amended): for every non-null input and all collaborator
outcomes, `createVmAsyncActivity` never propagates an exception: it
returns a result, and whenever that result reports failure it carries
the classified error message, so the enclosing batch always continues. -/
theorem c9_async_activity_never_throws (inp : NewVmDetailsM) (env : AsyncEnv) :
    ∃ r, createVmAsyncActivity (some inp) env = Except.ok r
      ∧ (r.success = false → r.error.isSome = true) := by
  simp only [createVmAsyncActivity]
  repeat' split
  all_goals
    first
      | exact ⟨_, rfl, fun _ => rfl⟩
      | exact ⟨_, rfl, fun hf => by simp_all⟩

/-- C8 (counterexample): the poller's delay does not follow the claimed
shape `min(base * multiplier^(attempt-1), cap)` — at the seventh poll
cycle (retryCount 6, attempt 7) the code clamps the exponent at 5
(`Math.pow(1.5, Math.min(retryCount, 5))`), giving 455.625s where the
claimed shape gives 600s. -/
theorem c8_poll_delay_shape_fails_at_seventh_cycle :
    pollDelay 60 600 6 ≠ min ((60 : ℚ) * (3 / 2) ^ (7 - 1 : Nat)) 600 := by
  norm_num [pollDelay, Nat.min_def, min_def]

/-- C8 (amended): for every policy with nonnegative base and multiplier
at least 1 (true of all policies in the source), the generic retry delay
`min(base * multiplier^(attempt-1), cap)` is monotonically
non-decreasing in the attempt number and never exceeds the cap; the
poller's delay, which clamps the exponent at 5, is likewise monotone and
capped. -/
theorem c8_delays_monotone_and_capped :
    (∀ cfg : RetryConfig, 0 ≤ cfg.initialDelayMs → 1 ≤ cfg.backoffMultiplier →
       ∀ a b : Nat, a ≤ b → retryDelay cfg a ≤ retryDelay cfg b)
    ∧ (∀ (cfg : RetryConfig) (a : Nat), retryDelay cfg a ≤ cfg.maxDelayMs)
    ∧ (∀ base maxd : ℚ, 0 ≤ base →
         ∀ i j : Nat, i ≤ j → pollDelay base maxd i ≤ pollDelay base maxd j)
    ∧ (∀ (base maxd : ℚ) (i : Nat), pollDelay base maxd i ≤ maxd) := by
  refine ⟨fun cfg h0 hm a b hab => ?_, fun cfg a => min_le_right _ _,
          fun base maxd h0 i j hij => ?_, fun base maxd i => min_le_right _ _⟩
  · exact min_le_min
      (mul_le_mul_of_nonneg_left (pow_le_pow_right₀ hm (Nat.sub_le_sub_right hab 1)) h0) le_rfl
  · exact min_le_min
      (mul_le_mul_of_nonneg_left
        (pow_le_pow_right₀ (by norm_num) (min_le_min hij le_rfl)) h0) le_rfl

/-- C8 (witness): monotonicity instances at the transient policy and at
the poller's reference parameters. -/
theorem c8_delays_monotone_and_capped_check :
    retryDelay retryPolicyTransient 2 ≤ retryDelay retryPolicyTransient 5
    ∧ pollDelay 60 600 3 ≤ pollDelay 60 600 9
    ∧ retryDelay retryPolicyTransient 4 ≤ retryPolicyTransient.maxDelayMs :=
  ⟨c8_delays_monotone_and_capped.1 retryPolicyTransient (by norm_num [retryPolicyTransient])
      (by norm_num [retryPolicyTransient]) 2 5 (by norm_num),
   c8_delays_monotone_and_capped.2.2.1 60 600 (by norm_num) 3 9 (by norm_num),
   c8_delays_monotone_and_capped.2.1 retryPolicyTransient 4⟩

/-- Helper: with enough fuel and a positive chunk size, concatenating
the chunks gives back the original list. -/
theorem chunkListFuel_join (n : Nat) (hn : 0 < n) :
    ∀ (fuel : Nat) (xs : List α), xs.length ≤ fuel → (chunkListFuel n fuel xs).flatten = xs := by
  intro fuel
  induction fuel with
  | zero =>
    intro xs hlen
    have : xs = [] := List.eq_nil_of_length_eq_zero (Nat.le_zero.mp hlen)
    subst this; rfl
  | succ f ih =>
    intro xs hlen
    cases xs with
    | nil => rfl
    | cons x rest =>
      have hne : n ≠ 0 := Nat.pos_iff_ne_zero.mp hn
      simp only [chunkListFuel, hne, if_false, List.flatten_cons]
      rw [ih ((x :: rest).drop n) (by simp only [List.length_drop, List.length_cons] at *; omega)]
      exact List.take_append_drop n (x :: rest)

/-- Helper: every element of the candidate list lies in some chunk of
the batch partition. -/
theorem exists_chunk_of_mem {n : Nat} (hn : 0 < n) {xs : List α} {s : α} (hs : s ∈ xs) :
    ∃ c ∈ chunkList n xs, s ∈ c := by
  have hj : (chunkList n xs).flatten = xs := chunkListFuel_join n hn xs.length xs le_rfl
  rw [← hj] at hs
  exact List.mem_flatten.mp hs

/-- Helper: a batch containing a candidate with a matching subnet whose
create call fails (with any classified error) makes the whole batch
computation fail. -/
theorem runBatch_error_of_mem (subs : List SubnetLocationM)
    (create : SnapshotM → Except AppErrorVal VmInfoM) :
    ∀ (batch : List SnapshotM) (s : SnapshotM) (e : AppErrorVal), s ∈ batch →
      (findMatchingSubnet subs s).isSome = true → create s = Except.error e →
      ∃ e2, runBatch subs create batch = Except.error e2 := by
  intro batch
  induction batch with
  | nil => intro s e hs; exact absurd hs (List.not_mem_nil s)
  | cons x rest ih =>
    intro s e hs hfind hcr
    rcases List.mem_cons.mp hs with hx | hrest
    · subst hx
      rcases hm : findMatchingSubnet subs s with _ | sl
      · rw [hm] at hfind; simp at hfind
      · exact ⟨e, by simp only [runBatch, hm, hcr]⟩
    · obtain ⟨e2, he2⟩ := ih s e hrest hfind hcr
      rcases hm : findMatchingSubnet subs x with _ | sl
      · exact ⟨e2, by simp only [runBatch, hm, he2, Except.map]⟩
      · rcases hcx : create x with ex | vx
        · exact ⟨ex, by simp only [runBatch, hm, hcx]⟩
        · exact ⟨e2, by simp only [runBatch, hm, hcx, he2, Except.map]⟩

/-- Helper: if some chunk's batch computation fails, the whole batch
loop fails. -/
theorem runChunks_error_of_exists (subs : List SubnetLocationM)
    (create : SnapshotM → Except AppErrorVal VmInfoM) (db : Nat) :
    ∀ (chunks : List (List SnapshotM)),
      (∃ c ∈ chunks, ∃ e, runBatch subs create c = Except.error e) →
      ∃ e2, runChunks subs create db chunks = Except.error e2 := by
  intro chunks
  induction chunks with
  | nil => rintro ⟨c, hc, _⟩; exact absurd hc (List.not_mem_nil c)
  | cons c0 rest ih =>
    rintro ⟨c, hc, e, he⟩
    rcases List.mem_cons.mp hc with hx | hrest
    · subst hx
      exact ⟨e, by simp only [runChunks, he]⟩
    · rcases hb : runBatch subs create c0 with eb | rs
      · exact ⟨eb, by simp only [runChunks, hb]⟩
      · obtain ⟨e2, he2⟩ := ih ⟨c, hrest, e, he⟩
        exact ⟨e2, by simp only [runChunks, hb, he2]⟩

/-- Helper: a batch in which every candidate with a matching subnet
creates successfully completes with one recorded result per candidate
(missing-subnet candidates contributing recorded failures). -/
theorem runBatch_ok_of_all_ok (subs : List SubnetLocationM)
    (create : SnapshotM → Except AppErrorVal VmInfoM) :
    ∀ batch : List SnapshotM,
      (∀ s ∈ batch, (findMatchingSubnet subs s).isSome = true → ∃ v, create s = Except.ok v) →
      ∃ rs, runBatch subs create batch = Except.ok rs ∧ rs.length = batch.length := by
  intro batch
  induction batch with
  | nil => intro _; exact ⟨[], rfl, rfl⟩
  | cons x rest ih =>
    intro hall
    obtain ⟨rs, hrs, hlen⟩ := ih (fun s hs h => hall s (List.mem_cons_of_mem x hs) h)
    rcases hm : findMatchingSubnet subs x with _ | sl
    · exact ⟨.failedResult (noSubnetMsg x) :: rs,
        by simp only [runBatch, hm, hrs, Except.map], by simp [hlen]⟩
    · obtain ⟨v, hv⟩ := hall x (List.mem_cons_self x rest) (by rw [hm]; rfl)
      exact ⟨.vmOk v :: rs, by simp only [runBatch, hm, hv, hrs, Except.map], by simp [hlen]⟩

/-- C1 (counterexample): a two-candidate batch in which the second
candidate's create activity throws a classified permanent —
non-fatal — error (a disk that already exists): the error escapes the
batch loop and the whole request aborts with it, instead of being
recorded in the result list. -/
theorem c1_nonfatal_unit_error_aborts_request :
    runOrchestrator 20 10
      { snapshots := [
          { vmName := "vm1", snapshotName := "snap1", location := "w",
            diskProfile := "os-disk", ipAddress := none },
          { vmName := "vm2", snapshotName := "snap2", location := "w",
            diskProfile := "os-disk", ipAddress := none }],
        subnetLocations := [{ subnetId := "sub1", location := "w" }] }
      (fun s => createVmActivity
        { sourceSnapshot := some s, targetSubnetId := "sub1", targetResourceGroup := "rg" }
        (if s.vmName = "vm2" then
          { logStart := Except.ok (), diskResult := Except.error "already exists",
            vmResult := Except.ok { id := "id2", name := "vm2", ipAddress := "10.0.0.5" },
            logEnd := Except.ok () }
         else
          { logStart := Except.ok (), diskResult := Except.ok { id := "d1", name := "disk1" },
            vmResult := Except.ok { id := "id1", name := "vm1", ipAddress := "10.0.0.4" },
            logEnd := Except.ok () })) =
      Except.error (Thrown.appErr
        { ctor := ErrCtor.permanentC,
          message := "disk creation failed - resource already exists: already exists",
          statusCode := none }) := rfl

/-- C1 (amended): per-unit failures are recorded in the batch's result
list only for the missing-subnet case — when every dispatched create
succeeds, the batch completes with one recorded result per candidate —
whereas ANY classified error thrown by the per-unit create activity,
whether permanent, transient, business or fatal, escapes the batch loop
and aborts the entire request. -/
theorem c1_unit_error_policy :
    (∀ (subs : List SubnetLocationM) (create : SnapshotM → Except AppErrorVal VmInfoM)
       (batch : List SnapshotM),
       (∀ s ∈ batch, (findMatchingSubnet subs s).isSome = true → ∃ v, create s = Except.ok v) →
       ∃ rs, runBatch subs create batch = Except.ok rs ∧ rs.length = batch.length)
    ∧ (∀ (bs db : Nat) (snaps : List SnapshotM) (subs : List SubnetLocationM)
         (create : SnapshotM → Except AppErrorVal VmInfoM) (s : SnapshotM) (e : AppErrorVal),
         0 < bs → s ∈ snaps → (findMatchingSubnet subs s).isSome = true →
         create s = Except.error e → subs ≠ [] →
         ∃ e2, runOrchestrator bs db { snapshots := snaps, subnetLocations := subs } create =
           Except.error (Thrown.appErr e2)) := by
  refine ⟨runBatch_ok_of_all_ok, ?_⟩
  intro bs db snaps subs create s e hbs hmem hfind hcr hsubs
  obtain ⟨c, hc, hsc⟩ := exists_chunk_of_mem hbs hmem
  obtain ⟨eb, heb⟩ := runBatch_error_of_mem subs create c s e hsc hfind hcr
  obtain ⟨e2, he2⟩ := runChunks_error_of_exists subs create db (chunkList bs snaps) ⟨c, hc, eb, heb⟩
  refine ⟨e2, ?_⟩
  have hlen1 : snaps.length ≠ 0 :=
    Nat.pos_iff_ne_zero.mp (List.length_pos.mpr (List.ne_nil_of_mem hmem))
  have hlen2 : subs.length ≠ 0 :=
    Nat.pos_iff_ne_zero.mp (List.length_pos.mpr hsubs)
  simp only [runOrchestrator]
  rw [if_neg (not_or.mpr ⟨hlen1, hlen2⟩)]
  rw [he2]

/-- C1 (witness for the amended theorem): the abort conclusion at the
concrete two-candidate scenario. -/
theorem c1_unit_error_policy_check :
    ∃ e2, runOrchestrator 20 10
      { snapshots := [
          { vmName := "vm1", snapshotName := "snap1", location := "w",
            diskProfile := "os-disk", ipAddress := none },
          { vmName := "vm2", snapshotName := "snap2", location := "w",
            diskProfile := "os-disk", ipAddress := none }],
        subnetLocations := [{ subnetId := "sub1", location := "w" }] }
      (fun _ => Except.error
        { ctor := ErrCtor.transientC, message := "quota exceeded", statusCode := none }) =
      Except.error (Thrown.appErr e2) :=
  c1_unit_error_policy.2 20 10 _ _ _
    { vmName := "vm1", snapshotName := "snap1", location := "w",
      diskProfile := "os-disk", ipAddress := none }
    { ctor := ErrCtor.transientC, message := "quota exceeded", statusCode := none }
    (by decide) (by simp) rfl rfl (by simp)

/-- Helper: one step of the resolution retry loop aborts immediately,
counting a single attempt, when the classified error is an instance of
`PermanentError` or `FatalError`. -/
theorem getSnapsAux_abort_step (oracle : Nat → Except RawError RecoveryInfoM)
    (maxA fuel attempt : Nat) (lastError : Option AppErrorVal) (raw : RawError)
    (ce : AppErrorVal) (h1 : oracle attempt = Except.error raw)
    (h2 : classifyError raw = Except.ok ce) (hnr : nonRetriedByOrch ce = true) :
    getSnapsAux oracle maxA (fuel + 1) attempt lastError =
      (Except.error (Thrown.appErr ce), 1) := by
  simp only [getSnapsAux, h1, h2, hnr, if_true]

/-- Helper: the attempt count reported by the candidate-resolution step
is the attempt count of the underlying loop. -/
theorem getSnapshotsWithRetry_snd (oracle : Nat → Except RawError RecoveryInfoM) (maxA : Nat) :
    (getSnapshotsWithRetry oracle maxA).2 = (getSnapsAux oracle maxA maxA 1 none).2 := by
  unfold getSnapshotsWithRetry
  rcases h : getSnapsAux oracle maxA maxA 1 none with ⟨r, n⟩
  rcases r with t | ⟨ri, le⟩
  · simp
  · rcases ri with _ | info
    · rcases le with _ | e <;> simp
    · simp

/-- C6 (counterexample): an error with HTTP status 404 — classified as a
NON-retryable AzureError — is nevertheless retried: the resolution loop
performs all 3 attempts, because its non-retry test checks only
`instanceof PermanentError || instanceof FatalError` and an `AzureError`
is neither, contradicting "retries occur only for retryable error
kinds". -/
theorem c6_nonretryable_azure_is_retried :
    (getSnapshotsWithRetry
        (fun _ => Except.error (RawError.obj (some 404) none none (some "not found"))) 3).2 = 3
    ∧ classifyError (RawError.obj (some 404) none none (some "not found")) =
        Except.ok { ctor := ErrCtor.azureC, message := "not found", statusCode := some 404 }
    ∧ AppErrorVal.isRetryable
        { ctor := ErrCtor.azureC, message := "not found", statusCode := some 404 } = false :=
  ⟨rfl, rfl, rfl⟩

/-- C6 (amended): a first-attempt error classified as permanent (or
business, a permanent subtype) aborts the request at once with that
error and no retry is attempted; conversely the loop retries only
errors classified neither `PermanentError` nor `FatalError` — a set
that also contains non-retryable Azure-classified errors, so retrying
is not limited to retryable kinds. -/
theorem c6_resolution_retry_policy :
    (∀ (oracle : Nat → Except RawError RecoveryInfoM) (raw : RawError) (ce : AppErrorVal)
       (bs db : Nat) (create : SnapshotM → Except AppErrorVal VmInfoM),
       oracle 1 = Except.error raw → classifyError raw = Except.ok ce →
       instPermanent ce.ctor = true →
       fullOrchestrator bs db 3 oracle create = (Except.error (Thrown.appErr ce), 1))
    ∧ (∀ (oracle : Nat → Except RawError RecoveryInfoM) (maxA : Nat), 1 ≤ maxA →
        1 < (getSnapshotsWithRetry oracle maxA).2 →
        ∃ raw ce, oracle 1 = Except.error raw ∧ classifyError raw = Except.ok ce ∧
          nonRetriedByOrch ce = false) := by
  constructor
  · intro oracle raw ce bs db create h1 h2 hperm
    have hnr : nonRetriedByOrch ce = true := by
      simp [nonRetriedByOrch, hperm]
    have hrun : getSnapsAux oracle 3 3 1 none = (Except.error (Thrown.appErr ce), 1) :=
      getSnapsAux_abort_step oracle 3 2 1 none raw ce h1 h2 hnr
    simp only [fullOrchestrator, getSnapshotsWithRetry, hrun]
  · intro oracle maxA hmax hn
    rw [getSnapshotsWithRetry_snd] at hn
    obtain ⟨f, hf⟩ : ∃ f, maxA = f + 1 := ⟨maxA - 1, by omega⟩
    rw [hf] at hn
    rcases ho : oracle 1 with raw | info
    · rcases hcl : classifyError raw with js | ce
      · rw [show getSnapsAux oracle (f + 1) (f + 1) 1 none =
            (Except.error (Thrown.jsErr js), 1) by
            simp only [getSnapsAux, ho, hcl]] at hn
        omega
      · rcases hnr : nonRetriedByOrch ce with _ | _
        · exact ⟨raw, ce, rfl, hcl, hnr⟩
        · rw [show getSnapsAux oracle (f + 1) (f + 1) 1 none =
              (Except.error (Thrown.appErr ce), 1) by
              simp only [getSnapsAux, ho, hcl, hnr, if_true]] at hn
          omega
    · rw [show getSnapsAux oracle (f + 1) (f + 1) 1 none =
          (Except.ok (some info, none), 1) by
          simp only [getSnapsAux, ho]] at hn
      omega

/-- C6 (witness): the immediate-abort conclusion at a concrete oracle
that throws an already-classified permanent error on its first
attempt. -/
theorem c6_resolution_retry_policy_check :
    fullOrchestrator 20 10 3
      (fun _ => Except.error (RawError.classified
        { ctor := ErrCtor.permanentC, message := "auth denied", statusCode := none }))
      (fun _ => Except.ok { id := "id1", name := "vm1", ipAddress := "10.0.0.4" }) =
    (Except.error (Thrown.appErr
      { ctor := ErrCtor.permanentC, message := "auth denied", statusCode := none }), 1) :=
  c6_resolution_retry_policy.1 _ _ _ 20 10 _ rfl rfl rfl

end SnapRecovery
